import Mathlib

/-!
Shallow embedding of sonobuoy's configuration loader
(`pkg/config/loader.go`): the `LoadConfig` pipeline and the plugin
selection validation performed by `loadAllPlugins`.

External collaborators (viper file reading, `viper.Unmarshal`,
`pluginloader.LoadAllPlugins`, the process environment and hostname)
are modelled as explicit inputs: the read stage and the unmarshal stage
as `Except` values, discovery as an `Except` list of plugin handles,
and the environment as a record of the variables the loader consults.
-/

namespace Sonobuoy

/-- A plugin selection entry (`plugin.Selection`): a requested plugin name. -/
structure Selection where
  Name : String
  deriving Repr, DecidableEq

/-- A discovered plugin handle.  At this layer a handle exposes only its
name (`plugin.Interface.GetName`). -/
structure Plugin where
  name : String
  deriving Repr, DecidableEq

/-- Accessor `p.GetName()` from `plugin.Interface`. -/
def Plugin.GetName (p : Plugin) : String := p.name

/-- Aggregation settings used by the loader: the advertise address
computed in step 3 of `LoadConfig`, and the bind port it combines with. -/
structure AggregationConfig where
  AdvertiseAddress : String
  BindPort : Nat
  deriving Repr, DecidableEq

/-- The resolved configuration (`config.Config`), restricted to the
fields `LoadConfig` and `loadAllPlugins` touch.  `loadedPlugins` is the
set of registered plugin handles, keyed by name, kept as an association
list. -/
structure Config where
  Kubeconfig : String
  ResultsDir : String
  Resources : List String
  Aggregation : AggregationConfig
  Version : String
  PluginNamespace : String
  PluginSearchPath : List String
  PluginSelections : List Selection
  loadedPlugins : List (String × Plugin)
  deriving Repr, DecidableEq

/-- The raw configuration document as read and parsed by viper: each
recognized key is either absent (`none`) or present with a value.
Presence is observable (`viper.IsSet`), which is what the resource-list
special case relies on. -/
structure RawDoc where
  Kubeconfig : Option String := none
  ResultsDir : Option String := none
  Resources : Option (List String) := none
  AdvertiseAddress : Option String := none
  BindPort : Option Nat := none
  Version : Option String := none
  PluginNamespace : Option String := none
  PluginSearchPath : Option (List String) := none
  PluginSelections : Option (List Selection) := none
  deriving Repr, DecidableEq

/-- The process environment as consulted by `LoadConfig`:
`os.LookupEnv("SONOBUOY_ADVERTISE_IP")`, `os.Hostname()` (empty string
when the hostname is unresolvable), and `os.LookupEnv("RESULTS_DIR")`. -/
structure Env where
  SONOBUOY_ADVERTISE_IP : Option String
  Hostname : String
  RESULTS_DIR : Option String
  deriving Repr, DecidableEq

/-- Modelled from the spec: viper's array handling when unmarshalling
merges document arrays with existing values instead of replacing them
(the source comment at loader.go:80 records this: "Viper merges in
arrays, making this part necessary").  The exact merge shape is
irrelevant downstream because `LoadConfig` overwrites `Resources`
wholesale whenever the key is set. -/
def mergeStringArrays (old new : List String) : List String :=
  old ++ new

/-- Step 2, `viper.Unmarshal(cfg)` (loader.go:56): map the parsed document onto
the configuration, overwriting each field whose key the document
defines and keeping the existing (default) value otherwise.  Arrays are
merged per `mergeStringArrays`. -/
def unmarshalDoc (cfg : Config) (doc : RawDoc) : Config :=
  { cfg with
    Kubeconfig := doc.Kubeconfig.getD cfg.Kubeconfig
    ResultsDir := doc.ResultsDir.getD cfg.ResultsDir
    Resources :=
      match doc.Resources with
      | some rs => mergeStringArrays cfg.Resources rs
      | none => cfg.Resources
    Aggregation :=
      { AdvertiseAddress := doc.AdvertiseAddress.getD cfg.Aggregation.AdvertiseAddress
        BindPort := doc.BindPort.getD cfg.Aggregation.BindPort }
    Version := doc.Version.getD cfg.Version
    PluginNamespace := doc.PluginNamespace.getD cfg.PluginNamespace
    PluginSearchPath := doc.PluginSearchPath.getD cfg.PluginSearchPath
    PluginSelections := doc.PluginSelections.getD cfg.PluginSelections }

/-- Step 3 of `LoadConfig` (loader.go:61-70): when the advertise address
is the empty string, derive it from `SONOBUOY_ADVERTISE_IP` if that
variable is present, else from the hostname if non-empty, else leave it
empty; a found host is combined with the bind port as "host:port". -/
def deriveAdvertiseAddress (cfg : Config) (env : Env) : Config :=
  if cfg.Aggregation.AdvertiseAddress == "" then
    match env.SONOBUOY_ADVERTISE_IP with
    | some ip =>
        { cfg with Aggregation :=
          { cfg.Aggregation with
            AdvertiseAddress := ip ++ ":" ++ toString cfg.Aggregation.BindPort } }
    | none =>
        if env.Hostname ≠ "" then
          { cfg with Aggregation :=
            { cfg.Aggregation with
              AdvertiseAddress := env.Hostname ++ ":" ++ toString cfg.Aggregation.BindPort } }
        else cfg
  else cfg

/-- Insert a plugin handle into the keyed set, replacing any entry
already stored under the same name and appending otherwise. -/
def insertKeyed (l : List (String × Plugin)) (p : Plugin) : List (String × Plugin) :=
  if l.any (fun kv => kv.1 == p.GetName) then
    l.map (fun kv => if kv.1 == p.GetName then (kv.1, p) else kv)
  else
    l ++ [(p.GetName, p)]

/-- Modelled from the spec: `cfg.addPlugin(p)` (defined in the config
package outside this file) registers a discovered plugin handle into
the Configuration's `loadedPlugins` set, keyed by its name. -/
def Config.addPlugin (cfg : Config) (p : Plugin) : Config :=
  { cfg with loadedPlugins := insertKeyed cfg.loadedPlugins p }

/-- Lookup in the keyed plugin set. -/
def lookupPlugin (l : List (String × Plugin)) (k : String) : Option Plugin :=
  (l.find? (fun kv => kv.1 == k)).map (fun kv => kv.2)

/-- The selection scan of `loadAllPlugins` (loader.go:133-144): walk the
selections in order and return the name of the first one no discovered
plugin matches, or `none` when every selection is matched.  The inner
loop is the exact-string membership test `p.GetName() == sel.Name`. -/
def firstMissing (sels : List Selection) (plugins : List Plugin) : Option String :=
  match sels with
  | [] => none
  | sel :: rest =>
      if plugins.any (fun p => p.GetName == sel.Name) then
        firstMissing rest plugins
      else
        some sel.Name

/-- Model of `loadAllPlugins(cfg)` (loader.go:123-151).  The external discovery
call `pluginloader.LoadAllPlugins(...)` is supplied as `discovered`.
Its error is returned as-is; otherwise the first unmatched selection
aborts with the "Configured plugin ... does not exist" error; otherwise
every discovered handle is registered via `addPlugin`.  The returned
pair is the (possibly mutated) configuration together with the error,
mirroring the Go pointer mutation plus error return. -/
def loadAllPlugins (cfg : Config) (discovered : Except String (List Plugin)) :
    Config × Option String :=
  match discovered with
  | .error e => (cfg, some e)
  | .ok plugins =>
      match firstMissing cfg.PluginSelections plugins with
      | some name => (cfg, some ("Configured plugin " ++ name ++ " does not exist"))
      | none => (plugins.foldl Config.addPlugin cfg, none)

/-- Steps 2-4 of `LoadConfig` (loader.go:55-87), the resolver proper:
unmarshal the document over the defaults, derive the advertise address,
overwrite `Version` with the build metadata, apply the RESULTS_DIR
environment override, and replace `Resources` wholesale whenever the
document sets the key (even to an empty list). -/
def resolveConfig (defaults : Config) (doc : RawDoc) (env : Env)
    (buildVersion : String) : Config :=
  let cfg := unmarshalDoc defaults doc
  let cfg := deriveAdvertiseAddress cfg env
  let cfg := { cfg with Version := buildVersion }
  let cfg :=
    match env.RESULTS_DIR with
    | some d => { cfg with ResultsDir := d }
    | none => cfg
  match doc.Resources with
  | some rs => { cfg with Resources := rs }
  | none => cfg

/-- Model of `LoadConfig()` (loader.go:34-93).  `defaults` is the configuration
produced by `NewWithDefaults`; `readRes` is the outcome of
`viper.ReadInConfig`; `unmarshalRes` is the outcome of
`viper.Unmarshal`, carrying the typed document on success;
`buildVersion` is `buildinfo.Version`; `discovered` is the outcome of
the plugin discovery collaborator.  Stages run in source order: read,
unmarshal, resolve (steps 2-4), plugin load/validation. -/
def LoadConfig (defaults : Config) (readRes : Except String Unit)
    (unmarshalRes : Except String RawDoc) (env : Env) (buildVersion : String)
    (discovered : Except String (List Plugin)) : Option Config × Option String :=
  match readRes with
  | .error e => (none, some e)
  | .ok _ =>
      match unmarshalRes with
      | .error e => (none, some e)
      | .ok doc =>
          let out := loadAllPlugins (resolveConfig defaults doc env buildVersion) discovered
          (some out.1, out.2)

/-- The first-unmatched-selection predicate phrased directly from the
spec's words ("the first unmatched selection in iteration order over
selections"), to be compared with the code-derived `firstMissing`. -/
def firstUnmatchedSpec (sels : List Selection) (plugins : List Plugin) : Option String :=
  (sels.find? (fun sel => !(plugins.any (fun p => p.GetName == sel.Name)))).map
    (fun sel => sel.Name)

/-- A concrete baseline configuration standing in for the output of
`NewWithDefaults`, used by the concrete witness instances. -/
def defaultCfg : Config :=
  { Kubeconfig := ""
    ResultsDir := "/tmp/results"
    Resources := ["ns", "pods"]
    Aggregation := { AdvertiseAddress := "", BindPort := 8080 }
    Version := ""
    PluginNamespace := "heptio-sonobuoy"
    PluginSearchPath := ["/etc/sonobuoy/plugins.d"]
    PluginSelections := []
    loadedPlugins := [] }

/-- A concrete environment with nothing set and no resolvable hostname. -/
def envEmpty : Env :=
  { SONOBUOY_ADVERTISE_IP := none, Hostname := "", RESULTS_DIR := none }

/-- A concrete environment advertising an IP. -/
def envIP : Env :=
  { SONOBUOY_ADVERTISE_IP := some "10.0.0.5", Hostname := "", RESULTS_DIR := none }

/-- A concrete environment with only a resolvable hostname. -/
def envHost : Env :=
  { SONOBUOY_ADVERTISE_IP := none, Hostname := "node1", RESULTS_DIR := none }

/-- A configuration selecting the plugins "a" and "b". -/
def cfgAB : Config :=
  { defaultCfg with PluginSelections := [⟨"a"⟩, ⟨"b"⟩] }

/-- A configuration selecting only the plugin "a". -/
def cfgA : Config :=
  { defaultCfg with PluginSelections := [⟨"a"⟩] }

/-- A raw document explicitly setting the advertise address. -/
def docAdv : RawDoc :=
  { AdvertiseAddress := some "198.51.100.2:443" }

/-- The resolved configuration for the empty document under `envIP`. -/
def cfgC3 : Config :=
  resolveConfig defaultCfg {} envIP "v0.9"

/-- The resolved configuration for `docAdv` under `envEmpty`. -/
def cfgC10 : Config :=
  resolveConfig defaultCfg docAdv envEmpty "v0.9"

/-! Helper lemmas about the keyed plugin set. -/

theorem Plugin.mk_getName (p : Plugin) : Plugin.mk p.GetName = p := rfl

theorem key_of_replace (n k : String) (p : Plugin) (kv : String × Plugin) :
    ((if kv.1 == n then (kv.1, p) else kv).1 == k) = (kv.1 == k) := by
  by_cases h : (kv.1 == n) = true
  · rw [if_pos h]
  · rw [if_neg h]

theorem find?_map_insert (n k : String) (p : Plugin) (l : List (String × Plugin)) :
    List.find? (fun kv => kv.1 == k)
        (l.map (fun kv => if kv.1 == n then (kv.1, p) else kv))
      = Option.map (fun kv => if kv.1 == n then (kv.1, p) else kv)
          (List.find? (fun kv => kv.1 == k) l) := by
  rw [List.find?_map]
  have hfun : ((fun kv : String × Plugin => kv.1 == k) ∘
      (fun kv => if kv.1 == n then (kv.1, p) else kv))
      = (fun kv : String × Plugin => kv.1 == k) := by
    funext kv
    exact key_of_replace n k p kv
  rw [hfun]

theorem find?_eq_none_of_any_false (k : String) (l : List (String × Plugin))
    (h : l.any (fun kv => kv.1 == k) = false) :
    List.find? (fun kv => kv.1 == k) l = none := by
  refine List.find?_eq_none.mpr (fun x hx hpx => ?_)
  have : l.any (fun kv => kv.1 == k) = true := List.any_eq_true.mpr ⟨x, hx, hpx⟩
  rw [h] at this
  exact Bool.false_ne_true this

theorem lookupPlugin_insertKeyed_self (l : List (String × Plugin)) (p : Plugin) :
    lookupPlugin (insertKeyed l p) p.GetName = some p := by
  unfold insertKeyed lookupPlugin
  by_cases h : (l.any fun kv => kv.1 == p.GetName) = true
  · rw [if_pos h, find?_map_insert]
    obtain ⟨kv, hmem, hkv⟩ := List.any_eq_true.mp h
    have hsome : (List.find? (fun kv => kv.1 == p.GetName) l).isSome = true :=
      List.find?_isSome.mpr ⟨kv, hmem, hkv⟩
    obtain ⟨kv0, hf⟩ := Option.isSome_iff_exists.mp hsome
    have hp0 : (kv0.1 == p.GetName) = true := by
      simpa using List.find?_some hf
    rw [hf]
    show some (if kv0.1 == p.GetName then (kv0.1, p) else kv0).2 = some p
    rw [if_pos hp0]
  · have h' : (l.any fun kv => kv.1 == p.GetName) = false :=
      Bool.eq_false_iff.mpr h
    rw [if_neg h, List.find?_append, find?_eq_none_of_any_false _ _ h']
    simp [List.find?_cons]

theorem lookupPlugin_insertKeyed_ne (l : List (String × Plugin)) (p : Plugin)
    (k : String) (hnk : (p.GetName == k) = false) :
    lookupPlugin (insertKeyed l p) k = lookupPlugin l k := by
  unfold insertKeyed lookupPlugin
  by_cases h : (l.any fun kv => kv.1 == p.GetName) = true
  · rw [if_pos h, find?_map_insert]
    cases hf : List.find? (fun kv => kv.1 == k) l with
    | none => rfl
    | some kv0 =>
        have hk : kv0.1 = k := by
          simpa using List.find?_some hf
        have hne : (kv0.1 == p.GetName) = false := by
          rw [hk]
          exact beq_eq_false_iff_ne.mpr (Ne.symm (beq_eq_false_iff_ne.mp hnk))
        show some (if kv0.1 == p.GetName then (kv0.1, p) else kv0).2 = some kv0.2
        rw [if_neg (by rw [hne]; exact Bool.false_ne_true)]
  · rw [if_neg h, List.find?_append]
    have hsingle : List.find? (fun kv => kv.1 == k) [(p.GetName, p)] = none := by
      simp [List.find?_cons, hnk]
    rw [hsingle, Option.or_none]

theorem foldl_addPlugin_eq :
    ∀ (l : List Plugin) (cfg : Config),
      l.foldl Config.addPlugin cfg
        = { cfg with loadedPlugins := l.foldl insertKeyed cfg.loadedPlugins } := by
  intro l
  induction l with
  | nil => intro cfg; rfl
  | cons p tl ih =>
      intro cfg
      show tl.foldl Config.addPlugin (cfg.addPlugin p) = _
      rw [ih (cfg.addPlugin p)]
      rfl

theorem lookupPlugin_foldl_insertKeyed :
    ∀ (l : List Plugin) (acc : List (String × Plugin)) (k : String),
      lookupPlugin (l.foldl insertKeyed acc) k
        = if l.any (fun p => p.GetName == k) then some (Plugin.mk k)
          else lookupPlugin acc k := by
  intro l
  induction l with
  | nil => intro acc k; simp
  | cons p tl ih =>
      intro acc k
      show lookupPlugin (tl.foldl insertKeyed (insertKeyed acc p)) k = _
      rw [ih]
      by_cases hp : (p.GetName == k) = true
      · have hall : ((p :: tl).any fun q => q.GetName == k) = true := by
          simp [List.any_cons, hp]
        have hins : lookupPlugin (insertKeyed acc p) k = some (Plugin.mk k) := by
          have hk : p.GetName = k := beq_iff_eq.mp hp
          rw [← hk, lookupPlugin_insertKeyed_self, Plugin.mk_getName]
        by_cases ht : (tl.any fun q => q.GetName == k) = true
        · rw [if_pos ht, if_pos hall]
        · rw [if_neg ht, hins, if_pos hall]
      · have hp' : (p.GetName == k) = false := Bool.eq_false_iff.mpr hp
        rw [lookupPlugin_insertKeyed_ne acc p k hp']
        by_cases ht : (tl.any fun q => q.GetName == k) = true
        · rw [if_pos ht, if_pos (by simp [List.any_cons, ht])]
        · have ht' : (tl.any fun q => q.GetName == k) = false :=
            Bool.eq_false_iff.mpr ht
          rw [if_neg ht, if_neg (by simp [List.any_cons, hp', ht'])]

theorem deriveAdvertiseAddress_shape (cfg : Config) (env : Env) :
    ∃ a, deriveAdvertiseAddress cfg env
      = { cfg with Aggregation := { cfg.Aggregation with AdvertiseAddress := a } } := by
  unfold deriveAdvertiseAddress
  by_cases h : (cfg.Aggregation.AdvertiseAddress == "") = true
  · rw [if_pos h]
    cases hip : env.SONOBUOY_ADVERTISE_IP with
    | some ip => exact ⟨_, rfl⟩
    | none =>
        by_cases hh : env.Hostname ≠ ""
        · rw [if_pos hh]
          exact ⟨_, rfl⟩
        · rw [if_neg hh]
          exact ⟨cfg.Aggregation.AdvertiseAddress, rfl⟩
  · rw [if_neg h]
    exact ⟨cfg.Aggregation.AdvertiseAddress, rfl⟩

theorem loadAllPlugins_fst_shape (cfg : Config) (disc : Except String (List Plugin)) :
    ∃ lp, (loadAllPlugins cfg disc).1 = { cfg with loadedPlugins := lp } := by
  cases disc with
  | error e => exact ⟨cfg.loadedPlugins, rfl⟩
  | ok plugins =>
      cases hfm : firstMissing cfg.PluginSelections plugins with
      | some name =>
          refine ⟨cfg.loadedPlugins, ?_⟩
          show (match firstMissing cfg.PluginSelections plugins with
                | some name => (cfg, some ("Configured plugin " ++ name ++ " does not exist"))
                | none => (plugins.foldl Config.addPlugin cfg, none)).1 = _
          rw [hfm]
      | none =>
          refine ⟨plugins.foldl insertKeyed cfg.loadedPlugins, ?_⟩
          show (match firstMissing cfg.PluginSelections plugins with
                | some name => (cfg, some ("Configured plugin " ++ name ++ " does not exist"))
                | none => (plugins.foldl Config.addPlugin cfg, none)).1 = _
          rw [hfm]
          exact foldl_addPlugin_eq plugins cfg

theorem firstMissing_eq_spec :
    ∀ (sels : List Selection) (plugins : List Plugin),
      firstMissing sels plugins = firstUnmatchedSpec sels plugins := by
  intro sels plugins
  induction sels with
  | nil => rfl
  | cons sel rest ih =>
      show (if plugins.any (fun p => p.GetName == sel.Name) then
              firstMissing rest plugins
            else some sel.Name) = _
      by_cases h : (plugins.any fun p => p.GetName == sel.Name) = true
      · have hf : (!(plugins.any fun p => p.GetName == sel.Name)) = false := by
          rw [h]; rfl
        rw [if_pos h]
        unfold firstUnmatchedSpec
        rw [List.find?_cons, hf]
        exact ih
      · have hf : (!(plugins.any fun p => p.GetName == sel.Name)) = true := by
          rw [Bool.eq_false_iff.mpr h]; rfl
        rw [if_neg h]
        unfold firstUnmatchedSpec
        rw [List.find?_cons, hf]
        rfl

theorem any_perm (f : Plugin → Bool) {l1 l2 : List Plugin} (h : List.Perm l1 l2) :
    l1.any f = l2.any f := by
  rw [Bool.eq_iff_iff, List.any_eq_true, List.any_eq_true]
  constructor
  · rintro ⟨x, hx, hfx⟩
    exact ⟨x, h.mem_iff.mp hx, hfx⟩
  · rintro ⟨x, hx, hfx⟩
    exact ⟨x, h.mem_iff.mpr hx, hfx⟩

theorem firstMissing_perm (sels : List Selection) {l1 l2 : List Plugin}
    (h : List.Perm l1 l2) : firstMissing sels l1 = firstMissing sels l2 := by
  induction sels with
  | nil => rfl
  | cons sel rest ih =>
      show (if l1.any (fun p => p.GetName == sel.Name) then
              firstMissing rest l1
            else some sel.Name)
          = (if l2.any (fun p => p.GetName == sel.Name) then
              firstMissing rest l2
            else some sel.Name)
      rw [any_perm (fun p => p.GetName == sel.Name) h, ih]

theorem resolveConfig_Resources (defaults : Config) (doc : RawDoc) (env : Env)
    (bv : String) :
    (resolveConfig defaults doc env bv).Resources
      = doc.Resources.getD defaults.Resources := by
  obtain ⟨a, ha⟩ := deriveAdvertiseAddress_shape (unmarshalDoc defaults doc) env
  simp only [resolveConfig]
  rw [ha]
  cases hR : doc.Resources <;> cases hE : env.RESULTS_DIR <;>
    simp [hR, hE, unmarshalDoc]

theorem resolveConfig_Version (defaults : Config) (doc : RawDoc) (env : Env)
    (bv : String) :
    (resolveConfig defaults doc env bv).Version = bv := by
  obtain ⟨a, ha⟩ := deriveAdvertiseAddress_shape (unmarshalDoc defaults doc) env
  simp only [resolveConfig]
  rw [ha]
  cases hR : doc.Resources <;> cases hE : env.RESULTS_DIR <;>
    simp [hR, hE]

theorem resolveConfig_ResultsDir (defaults : Config) (doc : RawDoc) (env : Env)
    (bv : String) :
    (resolveConfig defaults doc env bv).ResultsDir
      = match env.RESULTS_DIR with
        | some d => d
        | none => doc.ResultsDir.getD defaults.ResultsDir := by
  obtain ⟨a, ha⟩ := deriveAdvertiseAddress_shape (unmarshalDoc defaults doc) env
  simp only [resolveConfig]
  rw [ha]
  cases hR : doc.Resources <;> cases hE : env.RESULTS_DIR <;>
    simp [hR, hE, unmarshalDoc]

theorem resolveConfig_PluginSelections (defaults : Config) (doc : RawDoc) (env : Env)
    (bv : String) :
    (resolveConfig defaults doc env bv).PluginSelections
      = doc.PluginSelections.getD defaults.PluginSelections := by
  obtain ⟨a, ha⟩ := deriveAdvertiseAddress_shape (unmarshalDoc defaults doc) env
  simp only [resolveConfig]
  rw [ha]
  cases hR : doc.Resources <;> cases hE : env.RESULTS_DIR <;>
    simp [hR, hE, unmarshalDoc]

theorem resolveConfig_loadedPlugins (defaults : Config) (doc : RawDoc) (env : Env)
    (bv : String) :
    (resolveConfig defaults doc env bv).loadedPlugins = defaults.loadedPlugins := by
  obtain ⟨a, ha⟩ := deriveAdvertiseAddress_shape (unmarshalDoc defaults doc) env
  simp only [resolveConfig]
  rw [ha]
  cases hR : doc.Resources <;> cases hE : env.RESULTS_DIR <;>
    simp [hR, hE, unmarshalDoc]

theorem resolveConfig_Aggregation (defaults : Config) (doc : RawDoc) (env : Env)
    (bv : String) :
    (resolveConfig defaults doc env bv).Aggregation
      = (deriveAdvertiseAddress (unmarshalDoc defaults doc) env).Aggregation := by
  unfold resolveConfig
  cases hR : doc.Resources with
  | some rs => cases hE : env.RESULTS_DIR <;> simp [hR, hE]
  | none => cases hE : env.RESULTS_DIR <;> simp [hR, hE]

/-! The claims. -/

/-- Claim C1: for every raw document the loader accepts, the resolved
configuration's resource list equals exactly the document's list when
the document defines the key at all (including as an empty list), never
the default and never a union; when the document omits the key it
equals the default list exactly. -/
theorem c1_resources_exact_replace (defaults : Config) (doc : RawDoc) (env : Env)
    (bv : String) (disc : Except String (List Plugin)) :
    (LoadConfig defaults (.ok ()) (.ok doc) env bv disc).1.map Config.Resources
      = some (doc.Resources.getD defaults.Resources) := by
  obtain ⟨lp, hlp⟩ := loadAllPlugins_fst_shape (resolveConfig defaults doc env bv) disc
  show some (loadAllPlugins (resolveConfig defaults doc env bv) disc).1.Resources = _
  rw [hlp]
  simp [resolveConfig_Resources]

/-- Claim C6: the resolved configuration's version always equals the
build metadata version, for every document and environment, even when
the document attempts to set a version value. -/
theorem c6_version_from_build_metadata (defaults : Config) (doc : RawDoc)
    (env : Env) (bv : String) (disc : Except String (List Plugin)) :
    (LoadConfig defaults (.ok ()) (.ok doc) env bv disc).1.map Config.Version
      = some bv := by
  obtain ⟨lp, hlp⟩ := loadAllPlugins_fst_shape (resolveConfig defaults doc env bv) disc
  show some (loadAllPlugins (resolveConfig defaults doc env bv) disc).1.Version = _
  rw [hlp]
  simp [resolveConfig_Version]

/-- Claim C7: the resolved results directory follows the precedence
environment override over document value over default: the RESULTS_DIR
environment variable wins whenever set, else the document value when
present, else the default. -/
theorem c7_resultsdir_precedence (defaults : Config) (doc : RawDoc) (env : Env)
    (bv : String) (disc : Except String (List Plugin)) :
    (LoadConfig defaults (.ok ()) (.ok doc) env bv disc).1.map Config.ResultsDir
      = some (match env.RESULTS_DIR with
              | some d => d
              | none => doc.ResultsDir.getD defaults.ResultsDir) := by
  obtain ⟨lp, hlp⟩ := loadAllPlugins_fst_shape (resolveConfig defaults doc env bv) disc
  show some (loadAllPlugins (resolveConfig defaults doc env bv) disc).1.ResultsDir = _
  rw [hlp]
  simp [resolveConfig_ResultsDir]

/-- Claim C2: validation fails with the plugin-not-found error naming
exactly the first unmatched selection in iteration order over the
selections (first conjunct), and whenever some selection has no
discovered plugin whose name equals it exactly, such a first unmatched
selection exists, so validation does fail (second conjunct). -/
theorem c2_first_unmatched_selection_error (cfg : Config) (plugins : List Plugin) :
    (∀ missing, firstUnmatchedSpec cfg.PluginSelections plugins = some missing →
      (loadAllPlugins cfg (.ok plugins)).2
        = some ("Configured plugin " ++ missing ++ " does not exist")) ∧
    ((∃ sel ∈ cfg.PluginSelections, ∀ p ∈ plugins, p.GetName ≠ sel.Name) →
      (firstUnmatchedSpec cfg.PluginSelections plugins).isSome = true) := by
  constructor
  · intro missing h
    have hfm : firstMissing cfg.PluginSelections plugins = some missing := by
      rw [firstMissing_eq_spec]
      exact h
    show (match firstMissing cfg.PluginSelections plugins with
          | some name => (cfg, some ("Configured plugin " ++ name ++ " does not exist"))
          | none => (plugins.foldl Config.addPlugin cfg, none)).2 = _
    rw [hfm]
  · rintro ⟨sel, hmem, hsel⟩
    have hpred : (!(plugins.any fun p => p.GetName == sel.Name)) = true := by
      have hany : (plugins.any fun p => p.GetName == sel.Name) = false := by
        refine Bool.eq_false_iff.mpr (fun hany => ?_)
        obtain ⟨p, hp, hpn⟩ := List.any_eq_true.mp hany
        exact hsel p hp (beq_iff_eq.mp hpn)
      rw [hany]
      rfl
    have hsome : (List.find?
        (fun s : Selection => !(plugins.any fun p => p.GetName == s.Name))
        cfg.PluginSelections).isSome = true :=
      List.find?_isSome.mpr ⟨sel, hmem, hpred⟩
    obtain ⟨x, hx⟩ := Option.isSome_iff_exists.mp hsome
    unfold firstUnmatchedSpec
    rw [hx]
    rfl

/-- Witness for C2 at the spec's example: selections ["a", "b"] with
only plugin "a" discovered fail naming "b". -/
theorem c2_witness :
    (loadAllPlugins cfgAB (.ok [⟨"a"⟩])).2
      = some ("Configured plugin " ++ "b" ++ " does not exist") :=
  (c2_first_unmatched_selection_error cfgAB [⟨"a"⟩]).1 "b" (by decide)

/-- Claim C4: on successful validation every discovered plugin handle,
including those not among the selections, is registered in the
configuration's loadedPlugins set keyed by its name. -/
theorem c4_all_discovered_registered (cfg : Config) (plugins : List Plugin)
    (h : (loadAllPlugins cfg (.ok plugins)).2 = none)
    (p : Plugin) (hp : p ∈ plugins) :
    lookupPlugin ((loadAllPlugins cfg (.ok plugins)).1).loadedPlugins p.GetName
      = some p := by
  cases hfm : firstMissing cfg.PluginSelections plugins with
  | some name =>
      exfalso
      have hbad : (loadAllPlugins cfg (.ok plugins)).2
          = some ("Configured plugin " ++ name ++ " does not exist") := by
        show (match firstMissing cfg.PluginSelections plugins with
              | some name => (cfg, some ("Configured plugin " ++ name ++ " does not exist"))
              | none => (plugins.foldl Config.addPlugin cfg, none)).2 = _
        rw [hfm]
      rw [h] at hbad
      exact Option.noConfusion hbad
  | none =>
      have h1 : (loadAllPlugins cfg (.ok plugins)).1
          = plugins.foldl Config.addPlugin cfg := by
        show (match firstMissing cfg.PluginSelections plugins with
              | some name => (cfg, some ("Configured plugin " ++ name ++ " does not exist"))
              | none => (plugins.foldl Config.addPlugin cfg, none)).1 = _
        rw [hfm]
      rw [h1, foldl_addPlugin_eq]
      show lookupPlugin (plugins.foldl insertKeyed cfg.loadedPlugins) p.GetName = some p
      rw [lookupPlugin_foldl_insertKeyed]
      rw [if_pos (List.any_eq_true.mpr ⟨p, hp, beq_self_eq_true p.GetName⟩)]
      rw [Plugin.mk_getName]

/-- Witness for C4 at the spec's example: selection ["a"] with
discovered plugins "a" and "c" registers both. -/
theorem c4_witness :
    lookupPlugin ((loadAllPlugins cfgA (.ok [⟨"a"⟩, ⟨"c"⟩])).1).loadedPlugins "a"
        = some ⟨"a"⟩ ∧
    lookupPlugin ((loadAllPlugins cfgA (.ok [⟨"a"⟩, ⟨"c"⟩])).1).loadedPlugins "c"
        = some ⟨"c"⟩ :=
  ⟨c4_all_discovered_registered cfgA [⟨"a"⟩, ⟨"c"⟩] (by decide) ⟨"a"⟩ (by decide),
   c4_all_discovered_registered cfgA [⟨"a"⟩, ⟨"c"⟩] (by decide) ⟨"c"⟩ (by decide)⟩

/-- Claim C5: when plugin loading or validation fails, the
configuration's loadedPlugins set is left unchanged; registration
happens only after every selection has been matched. -/
theorem c5_no_registration_on_failure (cfg : Config)
    (disc : Except String (List Plugin)) (e : String)
    (h : (loadAllPlugins cfg disc).2 = some e) :
    ((loadAllPlugins cfg disc).1).loadedPlugins = cfg.loadedPlugins := by
  cases disc with
  | error e2 => rfl
  | ok plugins =>
      cases hfm : firstMissing cfg.PluginSelections plugins with
      | some name =>
          have h1 : (loadAllPlugins cfg (.ok plugins)).1 = cfg := by
            show (match firstMissing cfg.PluginSelections plugins with
                  | some name => (cfg, some ("Configured plugin " ++ name ++ " does not exist"))
                  | none => (plugins.foldl Config.addPlugin cfg, none)).1 = _
            rw [hfm]
          rw [h1]
      | none =>
          exfalso
          have h2 : (loadAllPlugins cfg (.ok plugins)).2 = none := by
            show (match firstMissing cfg.PluginSelections plugins with
                  | some name => (cfg, some ("Configured plugin " ++ name ++ " does not exist"))
                  | none => (plugins.foldl Config.addPlugin cfg, none)).2 = _
            rw [hfm]
          rw [h2] at h
          exact Option.noConfusion h

/-- Witness for C5: the failing validation of selections ["a", "b"]
against the single discovered plugin "a" leaves loadedPlugins empty. -/
theorem c5_witness :
    ((loadAllPlugins cfgAB (.ok [⟨"a"⟩])).1).loadedPlugins = cfgAB.loadedPlugins :=
  c5_no_registration_on_failure cfgAB (.ok [⟨"a"⟩])
    ("Configured plugin " ++ "b" ++ " does not exist") (by decide)

/-- Claim C3: when the document does not set the advertise address (and
the defaults leave it empty), the resolved address host comes from the
advertise-IP environment variable when present, else from the hostname
when resolvable, else it stays empty; a found host is combined with the
configured bind port as "host:port". -/
theorem c3_advertise_address_derivation (defaults : Config) (doc : RawDoc)
    (env : Env) (bv : String) (disc : Except String (List Plugin)) (cfg : Config)
    (hdoc : doc.AdvertiseAddress = none)
    (hdef : defaults.Aggregation.AdvertiseAddress = "")
    (hres : (LoadConfig defaults (.ok ()) (.ok doc) env bv disc).1 = some cfg) :
    cfg.Aggregation.AdvertiseAddress
      = match env.SONOBUOY_ADVERTISE_IP with
        | some ip =>
            ip ++ ":" ++ toString (doc.BindPort.getD defaults.Aggregation.BindPort)
        | none =>
            if env.Hostname ≠ "" then
              env.Hostname ++ ":"
                ++ toString (doc.BindPort.getD defaults.Aggregation.BindPort)
            else "" := by
  have hcfg : some (loadAllPlugins (resolveConfig defaults doc env bv) disc).1
      = some cfg := hres
  have hcfg2 : cfg = (loadAllPlugins (resolveConfig defaults doc env bv) disc).1 :=
    (Option.some_inj.mp hcfg).symm
  obtain ⟨lp, hlp⟩ := loadAllPlugins_fst_shape (resolveConfig defaults doc env bv) disc
  have hagg : cfg.Aggregation = (resolveConfig defaults doc env bv).Aggregation := by
    rw [hcfg2, hlp]
  rw [hagg, resolveConfig_Aggregation]
  have hu : (unmarshalDoc defaults doc).Aggregation.AdvertiseAddress = "" := by
    simp [unmarshalDoc, hdoc, hdef]
  have hb : (unmarshalDoc defaults doc).Aggregation.BindPort
      = doc.BindPort.getD defaults.Aggregation.BindPort := by
    simp [unmarshalDoc]
  unfold deriveAdvertiseAddress
  have hcond : ((unmarshalDoc defaults doc).Aggregation.AdvertiseAddress == "") = true := by
    rw [hu]
    exact beq_self_eq_true ""
  rw [if_pos hcond]
  cases hip : env.SONOBUOY_ADVERTISE_IP with
  | some ip => simp [hb]
  | none =>
      by_cases hh : env.Hostname ≠ ""
      · rw [if_pos hh, if_pos hh]
        simp [hb]
      · rw [if_neg hh, if_neg hh]
        exact hu

/-- Witness for C3 at the spec's example: bind port 8080 and advertise
IP 10.0.0.5 give address "10.0.0.5:8080". -/
theorem c3_witness : cfgC3.Aggregation.AdvertiseAddress = "10.0.0.5:8080" := by
  have h := c3_advertise_address_derivation defaultCfg {} envIP "v0.9" (.ok [])
    cfgC3 (by decide) (by decide) (by decide)
  exact h.trans (by decide)

/-- Claim C8: the loader fails fast.  A read error is returned as-is
with no configuration, for every possible later-stage input; an
unmarshal error likewise; a discovery error is propagated unwrapped;
the loaded outcome for a well-read document is error-free exactly when
the selection scan finds no missing plugin; and an error-free outcome
requires every stage to have succeeded. -/
theorem c8_fail_fast (defaults : Config) (env : Env) (bv : String) :
    (∀ e unmarshalRes disc,
      LoadConfig defaults (.error e) unmarshalRes env bv disc = (none, some e)) ∧
    (∀ e disc,
      LoadConfig defaults (.ok ()) (.error e) env bv disc = (none, some e)) ∧
    (∀ doc e,
      (LoadConfig defaults (.ok ()) (.ok doc) env bv (.error e)).2 = some e) ∧
    (∀ doc plugins,
      ((LoadConfig defaults (.ok ()) (.ok doc) env bv (.ok plugins)).2 = none
        ↔ firstMissing (resolveConfig defaults doc env bv).PluginSelections plugins
            = none)) ∧
    (∀ readRes unmarshalRes disc,
      (LoadConfig defaults readRes unmarshalRes env bv disc).2 = none →
        readRes = .ok () ∧ (∃ doc, unmarshalRes = .ok doc) ∧
          ∃ plugins, disc = .ok plugins) := by
  refine ⟨fun e u d => rfl, fun e d => rfl, fun doc e => rfl, ?_, ?_⟩
  · intro doc plugins
    show (loadAllPlugins (resolveConfig defaults doc env bv) (.ok plugins)).2 = none ↔ _
    cases hfm : firstMissing (resolveConfig defaults doc env bv).PluginSelections plugins with
    | some name =>
        constructor
        · intro hcontra
          have hbad : (loadAllPlugins (resolveConfig defaults doc env bv) (.ok plugins)).2
              = some ("Configured plugin " ++ name ++ " does not exist") := by
            show (match firstMissing (resolveConfig defaults doc env bv).PluginSelections plugins with
                  | some name => (resolveConfig defaults doc env bv,
                      some ("Configured plugin " ++ name ++ " does not exist"))
                  | none => (plugins.foldl Config.addPlugin (resolveConfig defaults doc env bv), none)).2 = _
            rw [hfm]
          rw [hcontra] at hbad
          exact Option.noConfusion hbad
        · intro hcontra
          exact Option.noConfusion hcontra
    | none =>
        constructor
        · intro _
          rfl
        · intro _
          show (match firstMissing (resolveConfig defaults doc env bv).PluginSelections plugins with
                | some name => (resolveConfig defaults doc env bv,
                    some ("Configured plugin " ++ name ++ " does not exist"))
                | none => (plugins.foldl Config.addPlugin (resolveConfig defaults doc env bv), none)).2 = _
          rw [hfm]
  · intro readRes unmarshalRes disc h
    cases readRes with
    | error e => exact Option.noConfusion h
    | ok u =>
        cases u
        cases unmarshalRes with
        | error e => exact Option.noConfusion h
        | ok doc =>
            cases disc with
            | error e => exact Option.noConfusion h
            | ok plugins => exact ⟨rfl, ⟨doc, rfl⟩, ⟨plugins, rfl⟩⟩

/-- Witness for C8: a concrete read error and a concrete discovery
error are both surfaced unwrapped. -/
theorem c8_witness :
    LoadConfig defaultCfg (.error "read failed") (.ok {}) envEmpty "v0.9" (.ok [])
        = (none, some "read failed") ∧
    (LoadConfig defaultCfg (.ok ()) (.ok {}) envEmpty "v0.9"
        (.error "discovery failed")).2 = some "discovery failed" :=
  ⟨(c8_fail_fast defaultCfg envEmpty "v0.9").1 "read failed" (.ok {}) (.ok []),
   (c8_fail_fast defaultCfg envEmpty "v0.9").2.2.1 {} "discovery failed"⟩

/-- Claim C9: validation's outcome is independent of the order of the
discovered-plugin list: permuted discoveries produce the same error and
the same loadedPlugins set keyed by name. -/
theorem c9_discovery_order_irrelevant (cfg : Config) {l1 l2 : List Plugin}
    (h : List.Perm l1 l2) :
    (loadAllPlugins cfg (.ok l1)).2 = (loadAllPlugins cfg (.ok l2)).2 ∧
    ∀ k, lookupPlugin ((loadAllPlugins cfg (.ok l1)).1).loadedPlugins k
        = lookupPlugin ((loadAllPlugins cfg (.ok l2)).1).loadedPlugins k := by
  have hfm := firstMissing_perm cfg.PluginSelections h
  constructor
  · show (match firstMissing cfg.PluginSelections l1 with
          | some name => (cfg, some ("Configured plugin " ++ name ++ " does not exist"))
          | none => (l1.foldl Config.addPlugin cfg, none)).2
        = (match firstMissing cfg.PluginSelections l2 with
          | some name => (cfg, some ("Configured plugin " ++ name ++ " does not exist"))
          | none => (l2.foldl Config.addPlugin cfg, none)).2
    rw [hfm]
    cases hc : firstMissing cfg.PluginSelections l2 <;> rfl
  · intro k
    cases hc : firstMissing cfg.PluginSelections l2 with
    | some name =>
        have h1 : firstMissing cfg.PluginSelections l1 = some name := by
          rw [hfm, hc]
        have e1 : (loadAllPlugins cfg (.ok l1)).1 = cfg := by
          show (match firstMissing cfg.PluginSelections l1 with
                | some name => (cfg, some ("Configured plugin " ++ name ++ " does not exist"))
                | none => (l1.foldl Config.addPlugin cfg, none)).1 = _
          rw [h1]
        have e2 : (loadAllPlugins cfg (.ok l2)).1 = cfg := by
          show (match firstMissing cfg.PluginSelections l2 with
                | some name => (cfg, some ("Configured plugin " ++ name ++ " does not exist"))
                | none => (l2.foldl Config.addPlugin cfg, none)).1 = _
          rw [hc]
        rw [e1, e2]
    | none =>
        have h1 : firstMissing cfg.PluginSelections l1 = none := by
          rw [hfm, hc]
        have e1 : (loadAllPlugins cfg (.ok l1)).1 = l1.foldl Config.addPlugin cfg := by
          show (match firstMissing cfg.PluginSelections l1 with
                | some name => (cfg, some ("Configured plugin " ++ name ++ " does not exist"))
                | none => (l1.foldl Config.addPlugin cfg, none)).1 = _
          rw [h1]
        have e2 : (loadAllPlugins cfg (.ok l2)).1 = l2.foldl Config.addPlugin cfg := by
          show (match firstMissing cfg.PluginSelections l2 with
                | some name => (cfg, some ("Configured plugin " ++ name ++ " does not exist"))
                | none => (l2.foldl Config.addPlugin cfg, none)).1 = _
          rw [hc]
        rw [e1, e2, foldl_addPlugin_eq, foldl_addPlugin_eq]
        show lookupPlugin (l1.foldl insertKeyed cfg.loadedPlugins) k
            = lookupPlugin (l2.foldl insertKeyed cfg.loadedPlugins) k
        rw [lookupPlugin_foldl_insertKeyed, lookupPlugin_foldl_insertKeyed,
          any_perm (fun p => p.GetName == k) h]

/-- Witness for C9: discovered lists ["a", "c"] and ["c", "a"] give the
same outcome and registered plugin under key "a". -/
theorem c9_witness :
    (loadAllPlugins cfgA (.ok [⟨"a"⟩, ⟨"c"⟩])).2
        = (loadAllPlugins cfgA (.ok [⟨"c"⟩, ⟨"a"⟩])).2 ∧
    lookupPlugin ((loadAllPlugins cfgA (.ok [⟨"a"⟩, ⟨"c"⟩])).1).loadedPlugins "a"
        = lookupPlugin ((loadAllPlugins cfgA (.ok [⟨"c"⟩, ⟨"a"⟩])).1).loadedPlugins "a" :=
  ⟨(c9_discovery_order_irrelevant cfgA (List.Perm.swap ⟨"c"⟩ ⟨"a"⟩ [])).1,
   (c9_discovery_order_irrelevant cfgA (List.Perm.swap ⟨"c"⟩ ⟨"a"⟩ [])).2 "a"⟩

/-- Claim C10: advertise-address derivation is triggered by the value
being the empty string, not by key absence: a document explicitly
setting the address to the empty string behaves exactly like one
omitting the key (first conjunct), and a non-empty document-supplied
address is left unchanged by derivation (second conjunct). -/
theorem c10_empty_string_triggers_derivation (defaults : Config) (doc : RawDoc)
    (env : Env) (bv : String) (disc : Except String (List Plugin)) :
    (defaults.Aggregation.AdvertiseAddress = "" →
      LoadConfig defaults (.ok ()) (.ok { doc with AdvertiseAddress := some "" })
          env bv disc
        = LoadConfig defaults (.ok ()) (.ok { doc with AdvertiseAddress := none })
          env bv disc) ∧
    (∀ a cfg, a ≠ "" → doc.AdvertiseAddress = some a →
      (LoadConfig defaults (.ok ()) (.ok doc) env bv disc).1 = some cfg →
      cfg.Aggregation.AdvertiseAddress = a) := by
  constructor
  · intro hdef
    have hu : unmarshalDoc defaults { doc with AdvertiseAddress := some "" }
        = unmarshalDoc defaults { doc with AdvertiseAddress := none } := by
      simp [unmarshalDoc, hdef]
    have hr : resolveConfig defaults { doc with AdvertiseAddress := some "" } env bv
        = resolveConfig defaults { doc with AdvertiseAddress := none } env bv := by
      simp only [resolveConfig, hu]
    show (some (loadAllPlugins (resolveConfig defaults
            { doc with AdvertiseAddress := some "" } env bv) disc).1,
          (loadAllPlugins (resolveConfig defaults
            { doc with AdvertiseAddress := some "" } env bv) disc).2)
        = (some (loadAllPlugins (resolveConfig defaults
            { doc with AdvertiseAddress := none } env bv) disc).1,
          (loadAllPlugins (resolveConfig defaults
            { doc with AdvertiseAddress := none } env bv) disc).2)
    rw [hr]
  · intro a cfg ha hdoc hres
    have hcfg : some (loadAllPlugins (resolveConfig defaults doc env bv) disc).1
        = some cfg := hres
    have hcfg2 : cfg = (loadAllPlugins (resolveConfig defaults doc env bv) disc).1 :=
      (Option.some_inj.mp hcfg).symm
    obtain ⟨lp, hlp⟩ := loadAllPlugins_fst_shape (resolveConfig defaults doc env bv) disc
    have hagg : cfg.Aggregation = (resolveConfig defaults doc env bv).Aggregation := by
      rw [hcfg2, hlp]
    rw [hagg, resolveConfig_Aggregation]
    have hu : (unmarshalDoc defaults doc).Aggregation.AdvertiseAddress = a := by
      simp [unmarshalDoc, hdoc]
    unfold deriveAdvertiseAddress
    have hcond : ((unmarshalDoc defaults doc).Aggregation.AdvertiseAddress == "") = false := by
      rw [hu]
      exact beq_eq_false_iff_ne.mpr ha
    rw [if_neg (by rw [hcond]; exact Bool.false_ne_true)]
    exact hu

/-- Witness for C10: an explicitly empty address under a resolvable
hostname derives the same address as an omitted key, and an explicit
non-empty address survives resolution unchanged. -/
theorem c10_witness :
    LoadConfig defaultCfg (.ok ())
        (.ok { AdvertiseAddress := some "" }) envHost "v0.9" (.ok [])
      = LoadConfig defaultCfg (.ok ())
        (.ok { AdvertiseAddress := none }) envHost "v0.9" (.ok []) ∧
    cfgC10.Aggregation.AdvertiseAddress = "198.51.100.2:443" :=
  ⟨(c10_empty_string_triggers_derivation defaultCfg {} envHost "v0.9" (.ok [])).1
      (by decide),
   (c10_empty_string_triggers_derivation defaultCfg docAdv envEmpty "v0.9"
      (.ok [])).2 "198.51.100.2:443" cfgC10 (by decide) (by decide) (by decide)⟩

end Sonobuoy
